import Mathlib

/-!
Shallow embedding of src/main.py, the "hello-world-mcp" server.

Modelling conventions:
* Python strings are Lean `String`s (both count characters as Unicode code
  points, so `len`, slicing-reversal and per-character tests coincide).
* `types.TextContent(type="text", text=...)` is the structure `TextContent`.
* Python dictionaries are association lists in insertion order; assignment
  `d[k] = v` updates the first binding of `k` in place or appends a new one.
* Clock values (`datetime.now(timezone.utc)`) enter as explicit parameters:
  epoch timestamps as `Nat` seconds, broken-down datetimes as `PyDateTime`.
* Handlers that Python registers on a global `server` object are plain
  functions; the single piece of process-wide state (the `SERVER_INFO`
  dictionary) is threaded explicitly as a `ServerState`, so mutation-freedom
  is an actual theorem rather than a convention.
* JSON serialization of the resource payload is delegated in the source to
  the external `json` library; the embedding returns the dictionary that the
  source passes to `json.dumps`.
-/

/-- Model of `mcp.types.TextContent` with `type="text"`. -/
structure TextContent where
  type : String
  text : String
deriving Repr, DecidableEq

/-- `hello_world` (src/main.py lines 79-94): fixed greeting text. -/
def helloWorldMessage : String :=
  "Hello, World from MCP! 🌍 This is your first MCP server response."

/-- The `hello_world` tool handler. -/
def hello_world : List TextContent :=
  [⟨"text", helloWorldMessage⟩]

/-- Helper for `str.split()`: accumulate the current word (reversed) while
scanning; maximal runs of non-whitespace become words, whitespace is a
separator and leading/trailing whitespace produces no empty words. -/
def pyWordsAux : List Char → List Char → List String
  | [], acc => if acc = [] then [] else [String.mk acc.reverse]
  | c :: cs, acc =>
    if c.isWhitespace then
      if acc = [] then pyWordsAux cs []
      else String.mk acc.reverse :: pyWordsAux cs []
    else pyWordsAux cs (c :: acc)

/-- Model of Python `message.split()`: whitespace-delimited words. -/
def pyWords (s : String) : List String :=
  pyWordsAux s.data []

/-- Model of Python `message[::-1]`: character-reversed string. -/
def pyReverse (s : String) : String :=
  String.mk s.data.reverse

/-- The body text `echo` formats on valid input (src/main.py lines 159-163). -/
def echoBody (message : String) : String :=
  "Echo Response:\n📝 Original: \"" ++ message ++
  "\"\n📏 Length: " ++ toString message.length ++
  " characters\n🔄 Reversed: \"" ++ pyReverse message ++
  "\"\n📊 Word Count: " ++ toString (pyWords message).length ++ " words"

/-- Text returned when the message is empty (src/main.py line 149). -/
def echoEmptyText : String :=
  "Error: No message provided to echo. Please provide a message parameter."

/-- Text returned when the message exceeds 1000 characters (line 155). -/
def echoTooLongText : String :=
  "Error: Message too long. Please provide a message under 1000 characters."

/-- The `echo` tool handler (src/main.py lines 132-168).  `if not message`
on a Python string is the emptiness test; the handler always returns a
single successful text content, never an exception. -/
def echo (message : String) : List TextContent :=
  if message = "" then
    [⟨"text", echoEmptyText⟩]
  else if message.length > 1000 then
    [⟨"text", echoTooLongText⟩]
  else
    [⟨"text", echoBody message⟩]

/-- Substring containment: `pat` occurs contiguously inside `s`. -/
def strContains (s pat : String) : Prop :=
  ∃ a b : String, s = a ++ pat ++ b

theorem strAppend_assoc (a b c : String) : a ++ b ++ c = a ++ (b ++ c) := by
  cases a; cases b; cases c
  exact congrArg String.mk (List.append_assoc _ _ _)

theorem strContains_intro (a pat b : String) : strContains (a ++ pat ++ b) pat :=
  ⟨a, b, rfl⟩

theorem strContains_of_eq {s t pat : String} (h : s = t)
    (ht : strContains t pat) : strContains s pat := h ▸ ht

theorem strAppend_empty (s : String) : s ++ "" = s := by
  cases s
  exact congrArg String.mk (List.append_nil _)

/-- C1: on a non-empty message of at most 1000 characters, `echo` returns the
single successful text result built by `echoBody`, whose body contains the
original message in quotes, the character length, the character-reversed
message in quotes, and the whitespace-delimited word count. -/
theorem echo_valid (message : String) (hne : message ≠ "")
    (hlen : message.length ≤ 1000) :
    echo message = [⟨"text", echoBody message⟩] ∧
    strContains (echoBody message) ("\"" ++ message ++ "\"") ∧
    strContains (echoBody message) (toString message.length) ∧
    strContains (echoBody message) ("\"" ++ pyReverse message ++ "\"") ∧
    strContains (echoBody message) (toString (pyWords message).length ++ " words") := by
  have hA : ("Echo Response:\n📝 Original: \"" : String) =
      "Echo Response:\n📝 Original: " ++ "\"" := rfl
  have hB : ("\"\n📏 Length: " : String) = "\"" ++ "\n📏 Length: " := rfl
  have hC : (" characters\n🔄 Reversed: \"" : String) =
      " characters\n🔄 Reversed: " ++ "\"" := rfl
  have hD : ("\"\n📊 Word Count: " : String) = "\"" ++ "\n📊 Word Count: " := rfl
  refine ⟨?_, ?_, ?_, ?_, ?_⟩
  · simp only [echo, if_neg hne, if_neg (by omega : ¬ message.length > 1000)]
  · refine ⟨"Echo Response:\n📝 Original: ",
      "\n📏 Length: " ++ toString message.length ++ " characters\n🔄 Reversed: \"" ++
        pyReverse message ++ "\"\n📊 Word Count: " ++
        toString (pyWords message).length ++ " words", ?_⟩
    unfold echoBody
    rw [hA, hB]
    simp only [strAppend_assoc]
  · refine ⟨"Echo Response:\n📝 Original: \"" ++ message ++ "\"\n📏 Length: ",
      " characters\n🔄 Reversed: \"" ++ pyReverse message ++ "\"\n📊 Word Count: " ++
        toString (pyWords message).length ++ " words", ?_⟩
    unfold echoBody
    simp only [strAppend_assoc]
  · refine ⟨"Echo Response:\n📝 Original: \"" ++ message ++ "\"\n📏 Length: " ++
        toString message.length ++ " characters\n🔄 Reversed: ",
      "\n📊 Word Count: " ++ toString (pyWords message).length ++ " words", ?_⟩
    unfold echoBody
    rw [hC, hD]
    simp only [strAppend_assoc]
  · refine ⟨"Echo Response:\n📝 Original: \"" ++ message ++ "\"\n📏 Length: " ++
        toString message.length ++ " characters\n🔄 Reversed: \"" ++ pyReverse message ++
        "\"\n📊 Word Count: ", "", ?_⟩
    unfold echoBody
    rw [strAppend_empty]
    simp only [strAppend_assoc]

/-- Witness for C1 at the concrete message "abc": length 3, reversed "cba",
word count 1. -/
theorem echo_valid_witness :
    (("abc" : String) ≠ "" ∧ ("abc" : String).length ≤ 1000) ∧
    (echo "abc" = [⟨"text", echoBody "abc"⟩] ∧
     strContains (echoBody "abc") ("\"" ++ "abc" ++ "\"") ∧
     strContains (echoBody "abc") (toString ("abc" : String).length) ∧
     strContains (echoBody "abc") ("\"" ++ pyReverse "abc" ++ "\"") ∧
     strContains (echoBody "abc") (toString (pyWords "abc").length ++ " words")) ∧
    ("abc" : String).length = 3 ∧ pyReverse "abc" = "cba" ∧
    (pyWords "abc").length = 1 :=
  ⟨⟨by decide, by decide⟩, echo_valid "abc" (by decide) (by decide),
   by decide, by decide, by decide⟩

/-- C2: `echo` is total (always one successful text content, never a
protocol error); on the empty message the body contains "No message
provided", on an over-long message the body contains "too long". -/
theorem echo_invalid_total (message : String) :
    (∃ t : String, echo message = [⟨"text", t⟩]) ∧
    (message = "" → echo message = [⟨"text", echoEmptyText⟩] ∧
      strContains echoEmptyText "No message provided") ∧
    (message.length > 1000 → echo message = [⟨"text", echoTooLongText⟩] ∧
      strContains echoTooLongText "too long") := by
  refine ⟨?_, ?_, ?_⟩
  · by_cases h1 : message = ""
    · exact ⟨echoEmptyText, by simp [echo, h1]⟩
    · by_cases h2 : message.length > 1000
      · exact ⟨echoTooLongText, by simp [echo, h1, h2]⟩
      · exact ⟨echoBody message, by simp [echo, h1, h2]⟩
  · intro h
    refine ⟨by simp [echo, h], ?_⟩
    exact ⟨"Error: ", " to echo. Please provide a message parameter.", by decide⟩
  · intro h
    have h1 : ¬ message = "" := by
      intro he
      rw [he] at h
      simp [String.length] at h
    refine ⟨by simp [echo, h1, h], ?_⟩
    exact ⟨"Error: Message ", ". Please provide a message under 1000 characters.",
      by decide⟩

/-- A concrete 1001-character message, for exercising the length check. -/
def longTestMessage : String := String.mk (List.replicate 1001 'x')

/-- Witness for C2 at the empty message and at a 1001-character message. -/
theorem echo_invalid_total_witness :
    (("" : String) = "" ∧ echo "" = [⟨"text", echoEmptyText⟩] ∧
      strContains echoEmptyText "No message provided") ∧
    (longTestMessage.length > 1000 ∧ echo longTestMessage = [⟨"text", echoTooLongText⟩] ∧
      strContains echoTooLongText "too long") := by
  have hl : longTestMessage.length > 1000 := by
    show (List.replicate 1001 'x').length > 1000
    rw [List.length_replicate]
    omega
  refine ⟨⟨rfl, (echo_invalid_total "").2.1 rfl⟩,
    ⟨hl, (echo_invalid_total longTestMessage).2.2 hl⟩⟩

/-- Values stored in the `SERVER_INFO` dictionary.  ISO-formatted UTC
timestamps (`datetime.now(timezone.utc).isoformat()`) are modelled by their
epoch second, constructor `t`. -/
inductive PyVal where
  | s : String → PyVal
  | n : Nat → PyVal
  | strs : List String → PyVal
  | t : Nat → PyVal
deriving Repr, DecidableEq

/-- A Python dictionary in insertion order. -/
abbrev PyDict := List (String × PyVal)

/-- `SERVER_INFO` (src/main.py lines 37-44); `created` is the process-start
timestamp captured by `datetime.now(timezone.utc)` at module load. -/
def SERVER_INFO (created : Nat) : PyDict :=
  [("name", .s "Hello World MCP Server"),
   ("version", .s "1.0.0"),
   ("description", .s "A simple MCP server for learning purposes"),
   ("features", .strs ["tools", "resources", "prompts"]),
   ("tools_count", .n 3),
   ("created", .t created)]

/-- Python dictionary assignment `d[k] = v`: overwrite the binding in place
when the key exists, append a new binding otherwise. -/
def dictSet (d : PyDict) (k : String) (v : PyVal) : PyDict :=
  if (d.map Prod.fst).contains k then
    d.map (fun p => if p.1 = k then (k, v) else p)
  else
    d ++ [(k, v)]

/-- The keys of a dictionary, in order. -/
def dictKeys (d : PyDict) : List String := d.map Prod.fst

/-- Dictionary lookup (first binding wins). -/
def dictGet (d : PyDict) (k : String) : Option PyVal :=
  (d.find? (fun p => p.1 = k)).map Prod.snd

/-- The process-wide mutable state: the module-level `SERVER_INFO`
dictionary.  Threaded explicitly so that absence of mutation is provable. -/
structure ServerState where
  server_info : PyDict
deriving Repr, DecidableEq

/-- `handle_read_resource` (src/main.py lines 196-218).  On the known URI it
copies `SERVER_INFO` (`SERVER_INFO.copy()`), adds `info_requested_at` with
the read-time timestamp `now` to the copy, and returns it (the source then
serializes the dictionary with the external `json.dumps(..., indent=2)`);
on any other URI it raises `ValueError` with the offending URI, modelled as
`Except.error`.  The second component is the state after the call. -/
def handle_read_resource (st : ServerState) (now : Nat) (uri : String) :
    Except String PyDict × ServerState :=
  if uri = "server://info" then
    let server_info := st.server_info
    let server_info := dictSet server_info "info_requested_at" (.t now)
    (Except.ok server_info, st)
  else
    (Except.error ("Unknown resource URI: " ++ uri), st)

/-- C3: `read_resource` fails exactly on URIs other than "server://info",
and then with an unknown-resource error that contains the offending URI and
propagates as a real error (the `Except.error` branch), not a text payload. -/
theorem read_resource_unknown (st : ServerState) (now : Nat) (uri : String) :
    ((∃ e, (handle_read_resource st now uri).1 = Except.error e) ↔
      uri ≠ "server://info") ∧
    (uri ≠ "server://info" →
      (handle_read_resource st now uri).1 =
        Except.error ("Unknown resource URI: " ++ uri) ∧
      strContains ("Unknown resource URI: " ++ uri) uri) := by
  by_cases h : uri = "server://info"
  · subst h
    refine ⟨?_, fun hne => absurd rfl hne⟩
    simp [handle_read_resource]
  · refine ⟨?_, fun _ => ⟨by simp [handle_read_resource, h], ?_⟩⟩
    · simp [handle_read_resource, h]
    · refine ⟨"Unknown resource URI: ", "", ?_⟩
      rw [strAppend_empty]

/-- Witness for C3 at the URI "server://unknown". -/
theorem read_resource_unknown_witness :
    ("server://unknown" : String) ≠ "server://info" ∧
    ((handle_read_resource ⟨SERVER_INFO 0⟩ 0 "server://unknown").1 =
      Except.error ("Unknown resource URI: " ++ "server://unknown") ∧
     strContains ("Unknown resource URI: " ++ "server://unknown")
       "server://unknown") :=
  ⟨by decide,
   (read_resource_unknown ⟨SERVER_INFO 0⟩ 0 "server://unknown").2 (by decide)⟩

/-- C5: reading "server://info" returns (before serialization by the
external json library) a dictionary whose keys are exactly the
`SERVER_INFO` fields in insertion order plus `info_requested_at`; the
added timestamp is the read-time clock value, which is at or after the
process-start value stored under `created`. -/
theorem read_resource_info (created now : Nat) (hle : created ≤ now) :
    (handle_read_resource ⟨SERVER_INFO created⟩ now "server://info").1 =
      Except.ok (SERVER_INFO created ++ [("info_requested_at", PyVal.t now)]) ∧
    dictKeys (SERVER_INFO created ++ [("info_requested_at", PyVal.t now)]) =
      ["name", "version", "description", "features", "tools_count", "created",
       "info_requested_at"] ∧
    dictGet (SERVER_INFO created ++ [("info_requested_at", PyVal.t now)])
      "created" = some (PyVal.t created) ∧
    dictGet (SERVER_INFO created ++ [("info_requested_at", PyVal.t now)])
      "info_requested_at" = some (PyVal.t now) ∧
    created ≤ now :=
  ⟨rfl, rfl, rfl, rfl, hle⟩

/-- Witness for C5 with the process started at epoch second 100 and the
read happening at epoch second 105. -/
theorem read_resource_info_witness :
    100 ≤ 105 ∧
    ((handle_read_resource ⟨SERVER_INFO 100⟩ 105 "server://info").1 =
      Except.ok (SERVER_INFO 100 ++ [("info_requested_at", PyVal.t 105)]) ∧
     dictKeys (SERVER_INFO 100 ++ [("info_requested_at", PyVal.t 105)]) =
      ["name", "version", "description", "features", "tools_count", "created",
       "info_requested_at"] ∧
     dictGet (SERVER_INFO 100 ++ [("info_requested_at", PyVal.t 105)])
      "created" = some (PyVal.t 100) ∧
     dictGet (SERVER_INFO 100 ++ [("info_requested_at", PyVal.t 105)])
      "info_requested_at" = some (PyVal.t 105) ∧
     100 ≤ 105) :=
  ⟨by decide, read_resource_info 100 105 (by decide)⟩

/-- C8: `handle_read_resource` never mutates the stored `SERVER_INFO`
record: the state after any call (any URI, any clock value) is exactly the
state before it.  In the source this holds because the handler updates
`SERVER_INFO.copy()`, not `SERVER_INFO` itself. -/
theorem read_resource_frame (st : ServerState) (now : Nat) (uri : String) :
    (handle_read_resource st now uri).2 = st := by
  unfold handle_read_resource
  split <;> rfl

/-- Model of `mcp.types.Resource`. -/
structure Resource where
  uri : String
  name : String
  description : String
  mimeType : String
deriving Repr, DecidableEq

/-- Model of `mcp.types.PromptArgument`. -/
structure PromptArgument where
  name : String
  description : String
  required : Bool
deriving Repr, DecidableEq

/-- Model of `mcp.types.Prompt`. -/
structure Prompt where
  name : String
  description : String
  arguments : List PromptArgument
deriving Repr, DecidableEq

/-- `handle_list_resources` (src/main.py lines 175-193), with the process
state threaded through. -/
def handle_list_resources (st : ServerState) : List Resource × ServerState :=
  ([⟨"server://info", "Server Information",
     "Detailed information about this MCP server including capabilities and metadata",
     "application/json"⟩], st)

/-- `handle_list_prompts` (src/main.py lines 225-248), with the process
state threaded through. -/
def handle_list_prompts (st : ServerState) : List Prompt × ServerState :=
  ([⟨"greeting", "Generate a friendly greeting message in multiple languages",
     [⟨"language", "Language code for the greeting (en, de, es)", false⟩]⟩], st)

/-- C9: the list handlers are deterministic and mutation-free: every call
returns the one fixed resource descriptor for "server://info" (resp. the one
fixed prompt descriptor for "greeting" with its single optional `language`
argument), the returned value is independent of the state, and the state is
unchanged. -/
theorem list_handlers_constant (st st' : ServerState) :
    handle_list_resources st =
      ([⟨"server://info", "Server Information",
         "Detailed information about this MCP server including capabilities and metadata",
         "application/json"⟩], st) ∧
    handle_list_prompts st =
      ([⟨"greeting", "Generate a friendly greeting message in multiple languages",
         [⟨"language", "Language code for the greeting (en, de, es)", false⟩]⟩], st) ∧
    (handle_list_resources st).1 = (handle_list_resources st').1 ∧
    (handle_list_prompts st).1 = (handle_list_prompts st').1 ∧
    (handle_list_resources st).2 = st ∧
    (handle_list_prompts st).2 = st :=
  ⟨rfl, rfl, rfl, rfl, rfl, rfl⟩

/-- The English greeting template (src/main.py lines 48-54). -/
def greetingEn : String :=
  "Hello! I'm a friendly MCP server built for learning purposes. \nI can help you understand how MCP servers work by demonstrating:\n- Tools: Functions you can call (like getting the time)\n- Resources: Data I can provide (like server information) \n- Prompts: Templates I can generate (like this greeting)\n\nTry calling my tools or asking for my resources!"

/-- The German greeting template (src/main.py lines 56-62). -/
def greetingDe : String :=
  "Hallo! Ich bin ein freundlicher MCP Server, der zu Lernzwecken erstellt wurde.\nIch kann dir helfen zu verstehen, wie MCP Server funktionieren, indem ich demonstriere:\n- Tools: Funktionen, die du aufrufen kannst (wie die Uhrzeit abfragen)\n- Resources: Daten, die ich bereitstellen kann (wie Server-Informationen)\n- Prompts: Vorlagen, die ich generieren kann (wie diese Begrüßung)\n\nProbiere meine Tools aus oder frage nach meinen Ressourcen!"

/-- The Spanish greeting template (src/main.py lines 64-70). -/
def greetingEs : String :=
  "¡Hola! Soy un servidor MCP amigable creado con fines de aprendizaje.\nPuedo ayudarte a entender cómo funcionan los servidores MCP demostrando:\n- Tools: Funciones que puedes llamar (como obtener la hora)\n- Resources: Datos que puedo proporcionar (como información del servidor)\n- Prompts: Plantillas que puedo generar (como este saludo)\n\n¡Prueba mis herramientas o pregunta por mis recursos!"

/-- `GREETING_TEMPLATES` (src/main.py lines 47-71), in insertion order. -/
def GREETING_TEMPLATES : List (String × String) :=
  [("en", greetingEn), ("de", greetingDe), ("es", greetingEs)]

/-- Model of Python `str.lower`: lower-case each character (Python lowers
the full Unicode range, `Char.toLower` the ASCII range; they agree on the
ASCII language codes this server compares against). -/
def pyLower (s : String) : String :=
  String.mk (s.data.map Char.toLower)

/-- Model of Python `sep.join(parts)`. -/
def pyJoin (sep : String) : List String → String
  | [] => ""
  | [x] => x
  | x :: xs => x ++ sep ++ pyJoin sep xs

/-- The language-resolution step of `handle_get_prompt` (src/main.py lines
268-272): `language = "en"`, then if `arguments` is truthy (non-None and
non-empty) and holds key "language", lower-case its value and adopt it when
it is a key of `GREETING_TEMPLATES`. -/
def resolveLanguage (arguments : Option (List (String × String))) : String :=
  match arguments with
  | none => "en"
  | some args =>
    if !args.isEmpty && (List.lookup "language" args).isSome then
      let requested_lang := pyLower ((List.lookup "language" args).getD "")
      if (GREETING_TEMPLATES.map Prod.fst).contains requested_lang then
        requested_lang
      else "en"
    else "en"

/-- Model of `mcp.types.PromptMessage`. -/
structure PromptMessage where
  role : String
  content : TextContent
deriving Repr, DecidableEq

/-- Model of `mcp.types.GetPromptResult`. -/
structure GetPromptResult where
  description : String
  messages : List PromptMessage
deriving Repr, DecidableEq

/-- `handle_get_prompt` (src/main.py lines 251-294).  The resolved
language is always a key of `GREETING_TEMPLATES`, so the `getD ""` default
of the template lookup is never taken; unknown prompt names raise
`ValueError`, modelled as `Except.error`. -/
def handle_get_prompt (name : String)
    (arguments : Option (List (String × String))) :
    Except String GetPromptResult :=
  if name = "greeting" then
    let language := resolveLanguage arguments
    let greeting_text := (List.lookup language GREETING_TEMPLATES).getD ""
    let available_langs := pyJoin ", " (GREETING_TEMPLATES.map Prod.fst)
    let footer := "\n\n(Available languages: " ++ available_langs ++ ")"
    Except.ok ⟨"Friendly greeting in " ++ language,
      [⟨"user", ⟨"text", greeting_text ++ footer⟩⟩]⟩
  else
    Except.error ("Unknown prompt: " ++ name)

/-- The language-resolution rule as the specification states it: the value
under "language", lower-cased, is used exactly when it is one of the
recognized codes en, de, es; otherwise the language is "en". -/
def claimedLanguage (arguments : Option (List (String × String))) : String :=
  match arguments with
  | none => "en"
  | some args =>
    match List.lookup "language" args with
    | none => "en"
    | some v =>
      if pyLower v = "en" ∨ pyLower v = "de" ∨ pyLower v = "es" then pyLower v
      else "en"

/-- C4: for every argument mapping, `get_prompt("greeting", args)` resolves
the language exactly as the specification's rule `claimedLanguage` states
(lower-cased value under "language" when that is one of en/de/es, else
"en"), and returns a single role-"user" message holding the resolved
template plus the footer listing exactly "en, de, es" in order, with a
description naming the resolved language; in particular "DE" resolves to the
German template and "fr" falls back to the English template without error. -/
theorem get_prompt_greeting (arguments : Option (List (String × String))) :
    resolveLanguage arguments = claimedLanguage arguments ∧
    handle_get_prompt "greeting" arguments =
      Except.ok ⟨"Friendly greeting in " ++ claimedLanguage arguments,
        [⟨"user", ⟨"text",
          (List.lookup (claimedLanguage arguments) GREETING_TEMPLATES).getD "" ++
          "\n\n(Available languages: en, de, es)"⟩⟩]⟩ ∧
    claimedLanguage (some [("language", "DE")]) = "de" ∧
    handle_get_prompt "greeting" (some [("language", "DE")]) =
      Except.ok ⟨"Friendly greeting in de",
        [⟨"user", ⟨"text",
          greetingDe ++ "\n\n(Available languages: en, de, es)"⟩⟩]⟩ ∧
    claimedLanguage (some [("language", "fr")]) = "en" ∧
    handle_get_prompt "greeting" (some [("language", "fr")]) =
      Except.ok ⟨"Friendly greeting in en",
        [⟨"user", ⟨"text",
          greetingEn ++ "\n\n(Available languages: en, de, es)"⟩⟩]⟩ := by
  have hres : resolveLanguage arguments = claimedLanguage arguments := by
    cases arguments with
    | none => rfl
    | some args =>
      cases args with
      | nil => rfl
      | cons p ps =>
        cases hl : List.lookup "language" (p :: ps) with
        | none => simp [resolveLanguage, claimedLanguage, hl]
        | some v =>
          simp [resolveLanguage, claimedLanguage, hl, GREETING_TEMPLATES]
  have hfoot : ("\n\n(Available languages: " : String) ++
      pyJoin ", " (GREETING_TEMPLATES.map Prod.fst) ++ ")" =
      "\n\n(Available languages: en, de, es)" := by decide
  refine ⟨hres, ?_, by decide, by rfl, by decide, by rfl⟩
  show Except.ok _ = _
  rw [hres, hfoot]

/-- C6: `get_prompt` fails exactly on names other than "greeting", and then
with an unknown-prompt error that contains the offending name and is a real
propagated failure (the `Except.error` branch), not a text payload. -/
theorem get_prompt_unknown (name : String)
    (arguments : Option (List (String × String))) (h : name ≠ "greeting") :
    handle_get_prompt name arguments =
      Except.error ("Unknown prompt: " ++ name) ∧
    strContains ("Unknown prompt: " ++ name) name ∧
    (∀ n a e, handle_get_prompt n a = Except.error e → n ≠ "greeting") := by
  refine ⟨by simp [handle_get_prompt, h], ?_, ?_⟩
  · refine ⟨"Unknown prompt: ", "", ?_⟩
    rw [strAppend_empty]
  · intro n a e he hn
    subst hn
    simp [handle_get_prompt] at he

/-- Witness for C6 at the prompt name "nonexistent" with no arguments. -/
theorem get_prompt_unknown_witness :
    ("nonexistent" : String) ≠ "greeting" ∧
    (handle_get_prompt "nonexistent" none =
      Except.error ("Unknown prompt: " ++ "nonexistent") ∧
     strContains ("Unknown prompt: " ++ "nonexistent") "nonexistent" ∧
     (∀ n a e, handle_get_prompt n a = Except.error e → n ≠ "greeting")) :=
  ⟨by decide, get_prompt_unknown "nonexistent" none (by decide)⟩

/-- A broken-down UTC instant, the model of the `datetime` value captured
once by `datetime.now(timezone.utc)` (src/main.py line 109); sub-second
precision is abstracted away, matching the claim's to-the-second reading. -/
structure PyDateTime where
  year : Nat
  month : Nat
  day : Nat
  hour : Nat
  minute : Nat
  second : Nat
deriving Repr, DecidableEq

/-- Two-digit zero-padded decimal, as `strftime` renders %m %d %H %M %S. -/
def pad2 (n : Nat) : String :=
  if n < 10 then "0" ++ toString n else toString n

/-- Four-digit zero-padded decimal, as `strftime` renders %Y. -/
def pad4 (n : Nat) : String :=
  if n < 10 then "000" ++ toString n
  else if n < 100 then "00" ++ toString n
  else if n < 1000 then "0" ++ toString n
  else toString n

/-- `strftime("%Y-%m-%d %H:%M:%S")` on a broken-down instant. -/
def strftimeYmdHMS (d : PyDateTime) : String :=
  pad4 d.year ++ "-" ++ pad2 d.month ++ "-" ++ pad2 d.day ++ " " ++
  pad2 d.hour ++ ":" ++ pad2 d.minute ++ ":" ++ pad2 d.second

/-- `datetime.isoformat()` of an aware UTC instant (at second precision):
the interchange timestamp string. -/
def isoformatUTC (d : PyDateTime) : String :=
  pad4 d.year ++ "-" ++ pad2 d.month ++ "-" ++ pad2 d.day ++ "T" ++
  pad2 d.hour ++ ":" ++ pad2 d.minute ++ ":" ++ pad2 d.second ++ "+00:00"

/-- Gregorian leap-year rule. -/
def isLeap (y : Nat) : Bool :=
  (y % 4 == 0 && y % 100 != 0) || y % 400 == 0

/-- Days in a month of a given year. -/
def daysInMonth (y m : Nat) : Nat :=
  if m = 2 then (if isLeap y then 29 else 28)
  else if m = 4 ∨ m = 6 ∨ m = 9 ∨ m = 11 then 30
  else 31

/-- Days in a year. -/
def daysInYear (y : Nat) : Nat := if isLeap y then 366 else 365

/-- Days from 1970-01-01 to the start of year `y`. -/
def daysBeforeYear (y : Nat) : Nat :=
  ((List.range (y - 1970)).map (fun i => daysInYear (1970 + i))).sum

/-- Days from the start of the year to the start of month `m`. -/
def daysBeforeMonth (y m : Nat) : Nat :=
  ((List.range (m - 1)).map (fun i => daysInMonth y (1 + i))).sum

/-- `datetime.timestamp()` of a UTC instant: seconds since the epoch
(the source's value is a float; at second granularity it is this Nat). -/
def epochOfUTC (d : PyDateTime) : Nat :=
  (daysBeforeYear d.year + daysBeforeMonth d.year d.month + (d.day - 1)) * 86400
    + d.hour * 3600 + d.minute * 60 + d.second

/-- The text block `get_current_time` formats (src/main.py lines 112-123):
UTC rendering, local rendering via the system zone view `localOf` with zone
name `tzName` (`now.astimezone()` and `%Z`), ISO interchange string, and
epoch seconds — all four computed from the one captured instant `now`. -/
def timeBody (now : PyDateTime) (localOf : PyDateTime → PyDateTime)
    (tzName : String) : String :=
  "Current Time Information:\n🕐 UTC Time: " ++ (strftimeYmdHMS now ++ " UTC") ++
  "\n🏠 Local Time: " ++ (strftimeYmdHMS (localOf now) ++ " " ++ tzName) ++
  "\n📅 ISO Format: " ++ isoformatUTC now ++
  "\n⏱️  Timestamp: " ++ toString (epochOfUTC now)

/-- The `get_current_time` tool handler (src/main.py lines 98-128). -/
def get_current_time (now : PyDateTime) (localOf : PyDateTime → PyDateTime)
    (tzName : String) : List TextContent :=
  [⟨"text", timeBody now localOf tzName⟩]

/-- C7: `get_current_time` returns one text result whose body contains four
components — the "YYYY-MM-DD HH:MM:SS UTC" string, the local-zone string,
the ISO interchange string, and the epoch-seconds value — all derived from
the single captured instant (the one `now`), hence mutually consistent to
the second; the epoch derivation is checked against known calendar points. -/
theorem get_current_time_single_instant (now : PyDateTime)
    (localOf : PyDateTime → PyDateTime) (tzName : String) :
    (∃ t : PyDateTime, t = now ∧
      get_current_time now localOf tzName = [⟨"text", timeBody t localOf tzName⟩] ∧
      strContains (timeBody t localOf tzName) (strftimeYmdHMS t ++ " UTC") ∧
      strContains (timeBody t localOf tzName)
        (strftimeYmdHMS (localOf t) ++ " " ++ tzName) ∧
      strContains (timeBody t localOf tzName) (isoformatUTC t) ∧
      strContains (timeBody t localOf tzName) (toString (epochOfUTC t))) ∧
    epochOfUTC ⟨2024, 1, 1, 0, 0, 0⟩ = 1704067200 ∧
    epochOfUTC ⟨1970, 1, 1, 0, 0, 1⟩ = 1 := by
  refine ⟨⟨now, rfl, rfl, ?_, ?_, ?_, ?_⟩, by decide, by decide⟩
  · refine ⟨"Current Time Information:\n🕐 UTC Time: ",
      "\n🏠 Local Time: " ++ (strftimeYmdHMS (localOf now) ++ " " ++ tzName) ++
      "\n📅 ISO Format: " ++ isoformatUTC now ++
      "\n⏱️  Timestamp: " ++ toString (epochOfUTC now), ?_⟩
    unfold timeBody
    simp only [strAppend_assoc]
  · refine ⟨"Current Time Information:\n🕐 UTC Time: " ++
      (strftimeYmdHMS now ++ " UTC") ++ "\n🏠 Local Time: ",
      "\n📅 ISO Format: " ++ isoformatUTC now ++
      "\n⏱️  Timestamp: " ++ toString (epochOfUTC now), ?_⟩
    unfold timeBody
    simp only [strAppend_assoc]
  · refine ⟨"Current Time Information:\n🕐 UTC Time: " ++
      (strftimeYmdHMS now ++ " UTC") ++ "\n🏠 Local Time: " ++
      (strftimeYmdHMS (localOf now) ++ " " ++ tzName) ++ "\n📅 ISO Format: ",
      "\n⏱️  Timestamp: " ++ toString (epochOfUTC now), ?_⟩
    unfold timeBody
    simp only [strAppend_assoc]
  · refine ⟨"Current Time Information:\n🕐 UTC Time: " ++
      (strftimeYmdHMS now ++ " UTC") ++ "\n🏠 Local Time: " ++
      (strftimeYmdHMS (localOf now) ++ " " ++ tzName) ++ "\n📅 ISO Format: " ++
      isoformatUTC now ++ "\n⏱️  Timestamp: ", "", ?_⟩
    unfold timeBody
    rw [strAppend_empty]

/-- A non-empty string of 1001 whitespace characters. -/
def whitespaceOnlyLong : String := String.mk (List.replicate 1001 ' ')

set_option maxRecDepth 100000 in
/-- C10 counterexample: a non-empty, all-whitespace message of 1001
characters does NOT pass the length check — `echo` returns the too-long
error payload, not the normal formatted block. -/
theorem echo_whitespace_counterexample :
    whitespaceOnlyLong ≠ "" ∧
    whitespaceOnlyLong.data.all Char.isWhitespace = true ∧
    echo whitespaceOnlyLong = [⟨"text", echoTooLongText⟩] ∧
    echo whitespaceOnlyLong ≠ [⟨"text", echoBody whitespaceOnlyLong⟩] := by
  refine ⟨by decide, by decide, by decide, by decide⟩

theorem pyWordsAux_all_ws (cs : List Char)
    (h : cs.all Char.isWhitespace = true) : pyWordsAux cs [] = [] := by
  induction cs with
  | nil => rfl
  | cons c cs ih =>
    rw [List.all_cons, Bool.and_eq_true] at h
    simp [pyWordsAux, h.1, ih h.2]

/-- C10 amended: the "No message provided" response is triggered exactly by
the empty string; every non-empty all-whitespace message OF LENGTH AT MOST
1000 passes both checks and gets the normal formatted block, which reports
a word count of 0 (the length bound is forced: a 1001-character whitespace
message instead triggers the too-long response). -/
theorem echo_whitespace_only (message : String) (hne : message ≠ "")
    (hlen : message.length ≤ 1000)
    (hws : message.data.all Char.isWhitespace = true) :
    echo message = [⟨"text", echoBody message⟩] ∧
    pyWords message = [] ∧
    strContains (echoBody message) "0 words" := by
  have hpw : pyWords message = [] := pyWordsAux_all_ws message.data hws
  have h0 : toString (pyWords message).length = "0" := by rw [hpw]; rfl
  refine ⟨?_, hpw, ?_⟩
  · simp only [echo, if_neg hne, if_neg (by omega : ¬ message.length > 1000)]
  · refine ⟨"Echo Response:\n📝 Original: \"" ++ message ++ "\"\n📏 Length: " ++
        toString message.length ++ " characters\n🔄 Reversed: \"" ++
        pyReverse message ++ "\"\n📊 Word Count: ", "", ?_⟩
    have hz : ("0 words" : String) = "0" ++ " words" := rfl
    unfold echoBody
    rw [strAppend_empty, hz, h0]
    simp only [strAppend_assoc]

/-- Witness for C10's amended statement at the single-space message " ":
non-empty, all-whitespace, within the length bound, word count 0. -/
theorem echo_whitespace_only_witness :
    ((" " : String) ≠ "" ∧ (" " : String).length ≤ 1000 ∧
     (" " : String).data.all Char.isWhitespace = true) ∧
    (echo " " = [⟨"text", echoBody " "⟩] ∧
     pyWords " " = [] ∧
     strContains (echoBody " ") "0 words") :=
  ⟨⟨by decide, by decide, by decide⟩,
   echo_whitespace_only " " (by decide) (by decide) (by decide)⟩
